import Mathlib

/-!
Verification of the Eco-Fin profitability and billing core of the iss-platform
repository, as a shallow embedding in Lean 4.

Money and hour quantities are Python Decimal values in the source
(src/backend/ecofin/models.py); every operation the embedded code performs on
them (addition, subtraction, multiplication, division by a count, division of
the VAT rate by 100) is exact at the precision the source uses, so they are
modelled as exact rationals.  Django model rows become structures carrying the
fields the embedded operations read or write; querysets become lists; a view
action that can answer HTTP 4xx becomes a function into Except String.

One place in the source leaves Decimal: the indirect-expenses share is
computed by dividing the pool in Python binary floating point and the result
is stored back through the float repr.  That path is modelled bit-exactly:
toDouble is IEEE-754 binary64 rounding (nearest, ties to even, 53-bit
significand; subnormal and overflowing magnitudes do not arise for the
bounded decimal columns of this schema and are not modelled), floatRepr is
the shortest decimal significand that reads back as the same double (the
Python float repr), and pythonRound2 is the Python round(x, 2) on a double:
decimal rounding of the exact binary value, re-read as the nearest double.
-/

/-- Client master data (src/backend/iss/models.py): the per-client hourly
tariff and fixed monthly costs that are copied onto processed records at
processing time and used for billing. -/
structure Client where
  id : Nat
  denumire : String
  tarif_orar : ℚ
  cazare_cost : ℚ
  masa_cost : ℚ
  transport_cost : ℚ
deriving Repr, DecidableEq

/-- Worker master data (src/backend/iss/models.py), reduced to what the Eco
Fin importer reads. -/
structure Worker where
  id : Nat
  nume : String
  prenume : String
deriving Repr, DecidableEq

/-- EcoFinSettings (src/backend/ecofin/models.py:17-65): global monthly
settings, unique per (year, month). -/
structure EcoFinSettings where
  year : Nat
  month : Nat
  cheltuieli_indirecte : ℚ
  cost_concediu : ℚ
  is_locked : Bool
deriving Repr, DecidableEq

/-- EcoFinProcessedRecord (src/backend/ecofin/models.py:157-343): the
computed profitability fact for one (worker, client, year, month), with a
snapshot of all inputs and the four derived fields. -/
structure EcoFinProcessedRecord where
  worker_id : Nat
  client_id : Nat
  year : Nat
  month : Nat
  nr_cim : String
  ore_lucrate : ℚ
  salariu_brut : ℚ
  cam : ℚ
  net : ℚ
  retineri : ℚ
  rest_plata : ℚ
  cost_salarial_complet : ℚ
  tarif_orar : ℚ
  cost_cazare : ℚ
  cost_masa : ℚ
  cost_transport : ℚ
  cota_indirecte : ℚ
  cost_concediu : ℚ
  cost_salariat_total : ℚ
  venit_generat : ℚ
  profitabilitate : ℚ
  is_validated : Bool
deriving Repr, DecidableEq

/-- EcoFinProcessedRecord.calculate_costs_and_profit
(src/backend/ecofin/models.py:309-337): sets the four derived fields from the
snapshot inputs, in the order of the source. -/
def EcoFinProcessedRecord.calculate_costs_and_profit
    (r : EcoFinProcessedRecord) : EcoFinProcessedRecord :=
  let cost_salarial_complet := r.salariu_brut + r.cam
  let cost_salariat_total :=
    cost_salarial_complet + r.cost_cazare + r.cost_masa + r.cost_transport +
      r.cota_indirecte + r.cost_concediu
  let venit_generat := r.ore_lucrate * r.tarif_orar
  { r with
    cost_salarial_complet := cost_salarial_complet
    cost_salariat_total := cost_salariat_total
    venit_generat := venit_generat
    profitabilitate := venit_generat - cost_salariat_total }

/-- EcoFinProcessedRecord.save (src/backend/ecofin/models.py:339-343):
recomputes the derived fields on every save unless the record is validated. -/
def EcoFinProcessedRecord.save (r : EcoFinProcessedRecord) :
    EcoFinProcessedRecord :=
  if r.is_validated then r else r.calculate_costs_and_profit

/-- BillingInvoice.PaymentStatus (src/backend/ecofin/models.py:500-503).
The source value strings are "unpaid", "partial", "paid"; the middle
constructor is named partlyPaid here because its source name is a reserved
word in Lean. -/
inductive PaymentStatus where
  | unpaid
  | partlyPaid
  | paid
deriving Repr, DecidableEq

/-- BillingInvoice.InvoiceStatus (src/backend/ecofin/models.py:505-508). -/
inductive InvoiceStatus where
  | draft
  | issued
  | cancelled
deriving Repr, DecidableEq

/-- BillingInvoice (src/backend/ecofin/models.py:495-645): one issued or
draft invoice for a (client, year, month).  The last_payment_sync_at
timestamp is modelled as a bare Nat tick. -/
structure BillingInvoice where
  client_id : Nat
  year : Nat
  month : Nat
  smartbill_series : String
  smartbill_number : String
  subtotal : ℚ
  vat_total : ℚ
  total : ℚ
  hours_billed : ℚ
  hourly_rate : ℚ
  status : InvoiceStatus
  payment_status : PaymentStatus
  paid_amount : ℚ
  due_amount : ℚ
  last_payment_sync_at : Nat
deriving Repr, DecidableEq

/-- BillingInvoice.save (src/backend/ecofin/models.py:628-638): every save
recomputes due_amount = total - paid_amount and derives payment_status from
paid_amount versus total, checking paid_amount >= total first. -/
def BillingInvoice.save (inv : BillingInvoice) : BillingInvoice :=
  let due_amount := inv.total - inv.paid_amount
  let payment_status :=
    if inv.paid_amount ≥ inv.total then PaymentStatus.paid
    else if inv.paid_amount > 0 then PaymentStatus.partlyPaid
    else PaymentStatus.unpaid
  { inv with due_amount := due_amount, payment_status := payment_status }

/-- The per-invoice step of BillingSyncViewSet.sync_payments
(src/backend/ecofin/billing_views.py:682-687): the external paid amount is
assigned (never incremented), the sync timestamp is stamped, and save derives
due_amount and payment_status. -/
def sync_apply_payment (inv : BillingInvoice) (paidAmount : ℚ) (now : Nat) :
    BillingInvoice :=
  BillingInvoice.save
    { inv with paid_amount := paidAmount, last_payment_sync_at := now }

/-- Invoice line as sent to the external invoicing API
(src/backend/ecofin/billing_views.py:322-367): name, quantity, price,
vatPercent. -/
structure SmartBillLine where
  name : String
  quantity : ℚ
  price : ℚ
  vatPercent : ℚ
deriving Repr, DecidableEq

/-- BillingInvoiceLine (src/backend/ecofin/models.py:648-692), as created at
src/backend/ecofin/billing_views.py:412-425. -/
structure BillingInvoiceLine where
  description : String
  quantity : ℚ
  unit_price : ℚ
  vat_rate : ℚ
  line_total : ℚ
  line_vat : ℚ
  line_type : String
deriving Repr, DecidableEq

/-- Extra service line supplied by the caller for extra_services mode
(src/backend/ecofin/billing_views.py:349-367). -/
structure ExtraLine where
  description : String
  quantity : ℚ
  unit_price : ℚ
  vat_rate : ℚ
deriving Repr, DecidableEq

/-- The three issuance modes (src/backend/ecofin/billing_views.py:322-349). -/
inductive IssueMode where
  | standard
  | difference
  | extra_services
deriving Repr, DecidableEq

/-- Sum of ore_lucrate over the EcoFinProcessedRecord rows of one client and
period (src/backend/ecofin/billing_views.py:302-306). -/
def totalHoursFor (records : List EcoFinProcessedRecord)
    (cid year month : Nat) : ℚ :=
  ((records.filter fun r =>
      r.client_id == cid && r.year == year && r.month == month).map
    (fun r => r.ore_lucrate)).sum

/-- Sum of subtotal over the already ISSUED invoices of one client and period
(src/backend/ecofin/billing_views.py:311-315). -/
def alreadyBilled (invoices : List BillingInvoice) (cid year month : Nat) : ℚ :=
  ((invoices.filter fun i =>
      i.client_id == cid && i.year == year && i.month == month &&
        i.status == InvoiceStatus.issued).map
    (fun i => i.subtotal)).sum

/-- The BillingInvoice row created after the external call succeeds
(src/backend/ecofin/billing_views.py:369-409): invoice-level vat_total and
total are derived from the mode-final subtotal and the blended vat_rate of
21, and objects.create runs the overridden save. -/
def mkIssuedInvoice (cid year month : Nat) (series number : String)
    (subtotal total_hours hourly_rate : ℚ) (mode : IssueMode) :
    BillingInvoice :=
  let vat_rate : ℚ := 21
  let vat_total := subtotal * (vat_rate / 100)
  let total := subtotal + vat_total
  BillingInvoice.save
    { client_id := cid
      year := year
      month := month
      smartbill_series := series
      smartbill_number := number
      subtotal := subtotal
      vat_total := vat_total
      total := total
      hours_billed := if mode = IssueMode.standard then total_hours else 0
      hourly_rate := hourly_rate
      status := InvoiceStatus.issued
      payment_status := PaymentStatus.unpaid
      paid_amount := 0
      due_amount := 0
      last_payment_sync_at := 0 }

/-- The BillingInvoiceLine rows created for the invoice
(src/backend/ecofin/billing_views.py:412-425): each line independently
derives line_total = quantity * price and line_vat = line_total *
vatPercent / 100. -/
def mkInvoiceLines (lines : List SmartBillLine) (mode : IssueMode) :
    List BillingInvoiceLine :=
  lines.map fun l =>
    { description := l.name
      quantity := l.quantity
      unit_price := l.price
      vat_rate := l.vatPercent
      line_total := l.quantity * l.price
      line_vat := l.quantity * l.price * (l.vatPercent / 100)
      line_type :=
        match mode with
        | IssueMode.standard => "standard"
        | IssueMode.difference => "difference"
        | IssueMode.extra_services => "extra" }

/-- BillingInvoiceViewSet.issue_invoice
(src/backend/ecofin/billing_views.py:254-425), from the confirm_hours_agreed
check to the creation of the local invoice and its lines.  The external
invoicing call is abstracted by the series and number it returns; the
descriptive month-name text of the line labels is dropped.  Every error
return happens before the local invoice row is created. -/
def issue_invoice (db : List BillingInvoice)
    (records : List EcoFinProcessedRecord) (client : Client)
    (year month : Nat) (mode : IssueMode) (extra_lines : List ExtraLine)
    (confirm_hours_agreed : Bool) (series number : String) :
    Except String (BillingInvoice × List BillingInvoiceLine) :=
  if confirm_hours_agreed = false then
    Except.error "Trebuie să confirmați că numărul de ore este agreat cu clientul."
  else
    let total_hours := totalHoursFor records client.id year month
    let hourly_rate := client.tarif_orar
    let subtotal := total_hours * hourly_rate
    let already_billed := alreadyBilled db client.id year month
    let vat_rate : ℚ := 21
    let modeResult : Except String (List SmartBillLine × ℚ) :=
      match mode with
      | IssueMode.standard =>
          Except.ok
            ([{ name := "PRESTARI SERVICII", quantity := 1,
                price := subtotal, vatPercent := vat_rate }], subtotal)
      | IssueMode.difference =>
          if subtotal ≤ already_billed then
            Except.error "Nu există diferență de facturat. Valoarea calculată nu depășește facturile existente."
          else
            let difference := subtotal - already_billed
            Except.ok
              ([{ name := "PRESTARI SERVICII DIFERENTA", quantity := 1,
                  price := difference, vatPercent := vat_rate }], difference)
      | IssueMode.extra_services =>
          if extra_lines.isEmpty then
            Except.error "Pentru modul extra_services, trebuie să furnizați extra_lines."
          else
            Except.ok
              (extra_lines.map fun e =>
                { name := e.description, quantity := e.quantity,
                  price := e.unit_price, vatPercent := e.vat_rate },
               (extra_lines.map fun e => e.quantity * e.unit_price).sum)
    match modeResult with
    | Except.error e => Except.error e
    | Except.ok (lines, finalSubtotal) =>
        Except.ok
          (mkIssuedInvoice client.id year month series number finalSubtotal
            total_hours hourly_rate mode,
           mkInvoiceLines lines mode)

/-- The invoice table after one issue_invoice request: unchanged on any
error (the view returns 4xx before any row is written), extended by the
created invoice on success. -/
def issue_invoice_db (db : List BillingInvoice)
    (records : List EcoFinProcessedRecord) (client : Client)
    (year month : Nat) (mode : IssueMode) (extra_lines : List ExtraLine)
    (confirm_hours_agreed : Bool) (series number : String) :
    List BillingInvoice :=
  match issue_invoice db records client year month mode extra_lines
      confirm_hours_agreed series number with
  | Except.error _ => db
  | Except.ok (inv, _) => db ++ [inv]

/-- The subtotal of the invoice an issue_invoice request creates, when it
creates one. -/
def issue_invoice_subtotal (db : List BillingInvoice)
    (records : List EcoFinProcessedRecord) (client : Client)
    (year month : Nat) (mode : IssueMode) (extra_lines : List ExtraLine)
    (confirm_hours_agreed : Bool) (series number : String) : Option ℚ :=
  match issue_invoice db records client year month mode extra_lines
      confirm_hours_agreed series number with
  | Except.error _ => none
  | Except.ok (inv, _) => some inv.subtotal

/-- EcoFinProcessedRecordViewSet.validate_month
(src/backend/ecofin/views.py:244-285): errors when the period has no
unvalidated records; otherwise marks every unvalidated record of the period
validated and sets is_locked on every EcoFinSettings row of the period. -/
def validate_month (records : List EcoFinProcessedRecord)
    (settingsRows : List EcoFinSettings) (year month : Nat) :
    Except String (List EcoFinProcessedRecord × List EcoFinSettings) :=
  let unvalidated := records.filter fun r =>
    r.year == year && r.month == month && r.is_validated == false
  if unvalidated.isEmpty then
    Except.error "Nu există înregistrări nevalidate."
  else
    Except.ok
      (records.map fun r =>
        if r.year == year && r.month == month && r.is_validated == false then
          { r with is_validated := true }
        else r,
       settingsRows.map fun s =>
        if s.year == year && s.month == month then
          { s with is_locked := true }
        else s)

/-- Rounding half to even to an integer, the tie-breaking rule shared by
IEEE-754 binary64 and by the Python built-in round. -/
def roundHalfEven (x : ℚ) : ℤ :=
  let f := ⌊x⌋
  if x - (f : ℚ) < 1 / 2 then f
  else if 1 / 2 < x - (f : ℚ) then f + 1
  else if f % 2 = 0 then f else f + 1

/-- The IEEE-754 binary64 value nearest to a positive rational: the
exponent e places the leading bit of x at position 52, and the 53-bit
significand is x / 2 ^ e rounded half to even. -/
def toDoublePos (x : ℚ) : ℚ :=
  let e : ℤ := Int.log 2 x - 52
  ((roundHalfEven (x / (2 : ℚ) ^ e) : ℤ) : ℚ) * (2 : ℚ) ^ e

/-- The binary64 double nearest to a rational of any sign. -/
def toDouble (x : ℚ) : ℚ :=
  if x = 0 then 0
  else if 0 < x then toDoublePos x
  else -toDoublePos (-x)

/-- A positive rational rounded half to even to d significant decimal
digits. -/
def decimalRoundPos (f : ℚ) (d : ℕ) : ℚ :=
  let k : ℤ := Int.log 10 f - ((d : ℤ) - 1)
  ((roundHalfEven (f / (10 : ℚ) ^ k) : ℤ) : ℚ) * (10 : ℚ) ^ k

/-- Decimal(str(f)) for a positive double f: the shortest decimal
significand, of at most 17 digits, that reads back as exactly f, which is
what the Python float repr prints; the exact value is returned in the
never-arising case that no significand of at most 17 digits round-trips. -/
def floatReprPos (f : ℚ) : ℚ :=
  (((List.range 17).findSome? fun i =>
      let q := decimalRoundPos f (i + 1)
      if toDouble q = f then some q else none).getD f)

/-- Decimal(str(f)) for a double f of any sign. -/
def floatRepr (f : ℚ) : ℚ :=
  if f = 0 then 0
  else if 0 < f then floatReprPos f
  else -floatReprPos (-f)

/-- Decimal rounding half to even at two decimal places, the first half of
the Python round(x, 2). -/
def decRound2 (x : ℚ) : ℚ :=
  ((roundHalfEven (x * 100) : ℤ) : ℚ) / 100

/-- The Python expression round(x, 2) on a double x: the exact binary value
is rounded half to even at two decimal places and the result is read back
as the nearest double. -/
def pythonRound2 (x : ℚ) : ℚ :=
  toDouble (decRound2 x)

/-- The per-worker share of the monthly indirect-expenses pool as the
source computes it (src/backend/ecofin/views.py:509-513 and 600-603): the
Decimal pool is converted to a double and divided by the count of valid
rows in binary floating point; the share is 0 when the count is 0. -/
def cota_indirecte_per_worker (cheltuieli_indirecte : ℚ)
    (valid_count : Nat) : ℚ :=
  if valid_count > 0 then
    toDouble (toDouble cheltuieli_indirecte / valid_count)
  else 0

/-- The share as stored on each created processed record
(src/backend/ecofin/views.py:630): Decimal(str(cota_indirecte)) re-reads
the shortest decimal repr of the double. -/
def stored_cota_indirecte (cheltuieli_indirecte : ℚ)
    (valid_count : Nat) : ℚ :=
  floatRepr (cota_indirecte_per_worker cheltuieli_indirecte valid_count)

/-- The cota_indirecte value written onto each valid preview row by
EcoFinImportViewSet.upload (src/backend/ecofin/views.py:516-518): the per
worker share rounded to two decimals by the Python round. -/
def preview_cota_indirecte (cheltuieli_indirecte : ℚ)
    (matched_count : Nat) : ℚ :=
  pythonRound2 (cota_indirecte_per_worker cheltuieli_indirecte matched_count)

/-- One row of the preview payload re-submitted to the process step
(src/backend/ecofin/views.py:578-634), reduced to the fields that step
reads. -/
structure ImportRow where
  row_number : Nat
  nr_cim : String
  worker_id : Nat
  client_id : Nat
  ore_lucrate : ℚ
  salariu_brut : ℚ
  cam : ℚ
  net : ℚ
  retineri : ℚ
  rest_plata : ℚ
  is_valid : Bool
  notes : String
deriving Repr, DecidableEq

/-- EcoFinImportViewSet.process_import (src/backend/ecofin/views.py:572-659):
errors when the period has no settings row; otherwise deletes the
unvalidated processed records of the period, splits the indirect pool over
the valid rows, and creates one processed record per valid row whose worker
and client both resolve (per-row failures are collected, not fatal).
objects.create runs the overridden save, which computes the derived
fields. -/
def process_import (recordsDB : List EcoFinProcessedRecord)
    (settingsDB : List EcoFinSettings) (workers : List Worker)
    (clients : List Client) (year month : Nat) (rows : List ImportRow) :
    Except String (List EcoFinProcessedRecord) :=
  match settingsDB.find? (fun s => s.year == year && s.month == month) with
  | none => Except.error "Setările pentru această lună nu există."
  | some settings =>
      let remaining := recordsDB.filter fun r =>
        !(r.year == year && r.month == month && r.is_validated == false)
      let valid_rows := rows.filter fun r => r.is_valid
      let cota := stored_cota_indirecte settings.cheltuieli_indirecte
        valid_rows.length
      let created := valid_rows.filterMap fun row =>
        match workers.find? (fun w => w.id == row.worker_id),
            clients.find? (fun c => c.id == row.client_id) with
        | some worker, some client =>
            some (EcoFinProcessedRecord.save
              { worker_id := worker.id
                client_id := client.id
                year := year
                month := month
                nr_cim := row.nr_cim
                ore_lucrate := row.ore_lucrate
                salariu_brut := row.salariu_brut
                cam := row.cam
                net := row.net
                retineri := row.retineri
                rest_plata := row.rest_plata
                cost_salarial_complet := 0
                tarif_orar := client.tarif_orar
                cost_cazare := client.cazare_cost
                cost_masa := client.masa_cost
                cost_transport := client.transport_cost
                cota_indirecte := cota
                cost_concediu := settings.cost_concediu
                cost_salariat_total := 0
                venit_generat := 0
                profitabilitate := 0
                is_validated := false })
        | _, _ => none
      Except.ok (remaining ++ created)

/-- Concrete processed record carrying the worked example inputs of the
spec: grossSalary 5000, CAM 125, hoursWorked 168, hourlyRate 25,
accommodation 500, meal 300, transport 200, indirectShare 100, vacation 50,
with the derived fields still at their defaults. -/
def exampleRecord : EcoFinProcessedRecord :=
  { worker_id := 1
    client_id := 1
    year := 2025
    month := 1
    nr_cim := "CIM100"
    ore_lucrate := 168
    salariu_brut := 5000
    cam := 125
    net := 0
    retineri := 0
    rest_plata := 0
    cost_salarial_complet := 0
    tarif_orar := 25
    cost_cazare := 500
    cost_masa := 300
    cost_transport := 200
    cota_indirecte := 100
    cost_concediu := 50
    cost_salariat_total := 0
    venit_generat := 0
    profitabilitate := 0
    is_validated := false }

/-- Concrete record frozen by validation, used to instantiate C7. -/
def c7_validated : EcoFinProcessedRecord :=
  { exampleRecord with is_validated := true }

/-- Invoice whose total and paid amount are both zero, as produced for
example by issuing a standard invoice over a period with zero recorded
hours; every other field is arbitrary concrete data. -/
def c5_zero_invoice : BillingInvoice :=
  { client_id := 1
    year := 2025
    month := 1
    smartbill_series := "ISS"
    smartbill_number := "1"
    subtotal := 0
    vat_total := 0
    total := 0
    hours_billed := 0
    hourly_rate := 25
    status := InvoiceStatus.issued
    payment_status := PaymentStatus.unpaid
    paid_amount := 0
    due_amount := 0
    last_payment_sync_at := 0 }

/-- Invoice with positive total 10 and nothing paid, instantiating the
amended C5. -/
def c5_unpaid_invoice : BillingInvoice :=
  { c5_zero_invoice with subtotal := 10, vat_total := 0, total := 10 }

/-- Client used by the concrete billing instances: id 1, hourly tariff 25
and the fixed costs of the spec example. -/
def exampleClient : Client :=
  { id := 1
    denumire := "Client A"
    tarif_orar := 25
    cazare_cost := 500
    masa_cost := 300
    transport_cost := 200 }

/-- The invoice issue_invoice creates for the spec-example period: 168
hours at tariff 25 give subtotal 4200, VAT 882 and total 5082. -/
def c2_invoice : BillingInvoice :=
  { client_id := 1
    year := 2025
    month := 1
    smartbill_series := "ISS"
    smartbill_number := "1001"
    subtotal := 4200
    vat_total := 882
    total := 5082
    hours_billed := 168
    hourly_rate := 25
    status := InvoiceStatus.issued
    payment_status := PaymentStatus.unpaid
    paid_amount := 0
    due_amount := 5082
    last_payment_sync_at := 0 }

/-- The single standard line of that invoice. -/
def c2_lines : List BillingInvoiceLine :=
  [{ description := "PRESTARI SERVICII"
     quantity := 1
     unit_price := 4200
     vat_rate := 21
     line_total := 4200
     line_vat := 882
     line_type := "standard" }]

/-- Client used by the difference-mode instances: id 2, hourly tariff 30. -/
def c3_client : Client :=
  { id := 2
    denumire := "Client B"
    tarif_orar := 30
    cazare_cost := 0
    masa_cost := 0
    transport_cost := 0 }

/-- A processed record of 200 hours for client 2 in 3/2025. -/
def c3_record : EcoFinProcessedRecord :=
  { exampleRecord with
    client_id := 2
    year := 2025
    month := 3
    ore_lucrate := 200 }

/-- An already ISSUED invoice for client 2 in 3/2025 with the given
subtotal. -/
def c3_invoice (sub : ℚ) : BillingInvoice :=
  { client_id := 2
    year := 2025
    month := 3
    smartbill_series := "ISS"
    smartbill_number := "9"
    subtotal := sub
    vat_total := 0
    total := 0
    hours_billed := 0
    hourly_rate := 30
    status := InvoiceStatus.issued
    payment_status := PaymentStatus.unpaid
    paid_amount := 0
    due_amount := 0
    last_payment_sync_at := 0 }

/-- An extra service line of quantity 2 at unit price 50. -/
def c8_line : ExtraLine :=
  { description := "Servicii suplimentare"
    quantity := 2
    unit_price := 50
    vat_rate := 21 }

/-- Monthly settings row for 1/2025 with an indirect pool of 100 and a
vacation cost of 50, initially unlocked. -/
def exampleSettings : EcoFinSettings :=
  { year := 2025
    month := 1
    cheltuieli_indirecte := 100
    cost_concediu := 50
    is_locked := false }

/-- The same settings row after validate_month locks it. -/
def exampleSettingsLocked : EcoFinSettings :=
  { exampleSettings with is_locked := true }

/-- An unvalidated processed record of a different month (2/2025), outside
the reprocessed period. -/
def c10_other : EcoFinProcessedRecord :=
  { exampleRecord with month := 2 }

/-- C1: For every processed record, calculate_costs_and_profit sets
fullSalaryCost = grossSalary + CAM, totalWorkerCost = fullSalaryCost +
accommodation + meal + transport + indirectShare + vacation,
generatedRevenue = hoursWorked * hourlyRate and profitability =
generatedRevenue - totalWorkerCost, with exact equality; on the spec
example the outputs are 5125, 6275, 4200 and -2075. -/
theorem C1_calculate_costs_and_profit_formulas :
    (∀ r : EcoFinProcessedRecord,
      r.calculate_costs_and_profit.cost_salarial_complet =
        r.salariu_brut + r.cam ∧
      r.calculate_costs_and_profit.cost_salariat_total =
        r.calculate_costs_and_profit.cost_salarial_complet + r.cost_cazare +
          r.cost_masa + r.cost_transport + r.cota_indirecte +
          r.cost_concediu ∧
      r.calculate_costs_and_profit.venit_generat =
        r.ore_lucrate * r.tarif_orar ∧
      r.calculate_costs_and_profit.profitabilitate =
        r.calculate_costs_and_profit.venit_generat -
          r.calculate_costs_and_profit.cost_salariat_total) ∧
    exampleRecord.calculate_costs_and_profit.cost_salarial_complet = 5125 ∧
    exampleRecord.calculate_costs_and_profit.cost_salariat_total = 6275 ∧
    exampleRecord.calculate_costs_and_profit.venit_generat = 4200 ∧
    exampleRecord.calculate_costs_and_profit.profitabilitate = -2075 := by
  refine ⟨fun r => ⟨rfl, rfl, rfl, rfl⟩, ?_, ?_, ?_, ?_⟩ <;>
    norm_num [exampleRecord, EcoFinProcessedRecord.calculate_costs_and_profit]

/-- C6: Payment reconciliation is idempotent: applying the same external
payment event a second time leaves paid_amount, due_amount and
payment_status unchanged from the first application, because the paid
amount is assigned rather than incremented and save recomputes the other
two from it. -/
theorem C6_sync_payments_idempotent (inv : BillingInvoice) (amount : ℚ)
    (now now' : Nat) :
    (sync_apply_payment (sync_apply_payment inv amount now) amount
        now').paid_amount =
      (sync_apply_payment inv amount now).paid_amount ∧
    (sync_apply_payment (sync_apply_payment inv amount now) amount
        now').due_amount =
      (sync_apply_payment inv amount now).due_amount ∧
    (sync_apply_payment (sync_apply_payment inv amount now) amount
        now').payment_status =
      (sync_apply_payment inv amount now).payment_status :=
  ⟨rfl, rfl, rfl⟩

/-- C7: While is_validated is false every save recomputes the four derived
fields from the snapshot inputs, and a save performed while is_validated is
true returns the record exactly as stored. -/
theorem C7_save_recomputes_until_validated (r : EcoFinProcessedRecord) :
    (r.is_validated = false →
      r.save.cost_salarial_complet = r.salariu_brut + r.cam ∧
      r.save.cost_salariat_total =
        r.salariu_brut + r.cam + r.cost_cazare + r.cost_masa +
          r.cost_transport + r.cota_indirecte + r.cost_concediu ∧
      r.save.venit_generat = r.ore_lucrate * r.tarif_orar ∧
      r.save.profitabilitate =
        r.ore_lucrate * r.tarif_orar -
          (r.salariu_brut + r.cam + r.cost_cazare + r.cost_masa +
            r.cost_transport + r.cota_indirecte + r.cost_concediu)) ∧
    (r.is_validated = true → r.save = r) := by
  constructor
  · intro h
    simp [EcoFinProcessedRecord.save, h,
      EcoFinProcessedRecord.calculate_costs_and_profit]
  · intro h
    simp [EcoFinProcessedRecord.save, h]

/-- Witness for C7 at concrete records: the unvalidated spec-example record
gets its revenue recomputed to 4200, and the validated copy is returned
unchanged by save. -/
theorem C7_witness :
    (exampleRecord.save.venit_generat =
      exampleRecord.ore_lucrate * exampleRecord.tarif_orar) ∧
    c7_validated.save = c7_validated :=
  ⟨((C7_save_recomputes_until_validated exampleRecord).1 rfl).2.2.1,
   (C7_save_recomputes_until_validated c7_validated).2 rfl⟩

/-- Counterexample to C5 as stated: at paid_amount = 0 and total = 0 the
save hook marks the invoice PAID, not UNPAID, because the
paid_amount >= total branch is checked first. -/
theorem C5_counterexample :
    c5_zero_invoice.paid_amount = 0 ∧
    (BillingInvoice.save c5_zero_invoice).payment_status =
      PaymentStatus.paid ∧
    (BillingInvoice.save c5_zero_invoice).payment_status ≠
      PaymentStatus.unpaid := by
  refine ⟨rfl, ?_, ?_⟩ <;> simp [BillingInvoice.save, c5_zero_invoice]

/-- C5 amended: for every invoice whose total is positive, a save leaves
payment_status UNPAID when paid_amount = 0, PARTIAL when
0 < paid_amount < total, and PAID when paid_amount >= total; when
total <= paid_amount in general (so in particular when total <= 0) the
PAID branch takes precedence. -/
theorem C5_payment_status_boundaries (inv : BillingInvoice)
    (hpos : 0 < inv.total) :
    (inv.paid_amount = 0 →
      (BillingInvoice.save inv).payment_status = PaymentStatus.unpaid) ∧
    (0 < inv.paid_amount → inv.paid_amount < inv.total →
      (BillingInvoice.save inv).payment_status = PaymentStatus.partlyPaid) ∧
    (inv.paid_amount ≥ inv.total →
      (BillingInvoice.save inv).payment_status = PaymentStatus.paid) := by
  simp only [BillingInvoice.save]
  split_ifs with h1 h2
  · exact ⟨fun h0 => absurd (h0 ▸ h1) (by simpa using hpos),
      fun _ hlt => absurd h1 (not_le.mpr hlt), fun _ => rfl⟩
  · exact ⟨fun h0 => absurd (h0 ▸ h2) (by simp),
      fun _ _ => rfl, fun hge => absurd hge h1⟩
  · exact ⟨fun _ => rfl, fun hlt _ => absurd hlt (by simpa using h2),
      fun hge => absurd hge h1⟩

/-- Witness for the amended C5: with total 10 and paid_amount 0 the save
hook yields UNPAID. -/
theorem C5_witness :
    (BillingInvoice.save c5_unpaid_invoice).payment_status =
      PaymentStatus.unpaid :=
  (C5_payment_status_boundaries c5_unpaid_invoice
    (by norm_num [c5_unpaid_invoice, c5_zero_invoice])).1 rfl

/-- Round half to even lands within half a unit of its argument. -/
theorem roundHalfEven_near (x : ℚ) : |(roundHalfEven x : ℚ) - x| ≤ 1 / 2 := by
  have h1 : ((⌊x⌋ : ℤ) : ℚ) ≤ x := Int.floor_le x
  have h2 : x < ((⌊x⌋ : ℤ) : ℚ) + 1 := Int.lt_floor_add_one x
  simp only [roundHalfEven]
  split_ifs with ha hb hc <;> rw [abs_le] <;> constructor <;> push_cast <;>
    linarith

/-- Half-unit bound for decimal rounding at two places. -/
theorem decRound2_near (x : ℚ) : |decRound2 x - x| ≤ 1 / 200 := by
  have h := roundHalfEven_near (x * 100)
  have hx : decRound2 x - x =
      ((roundHalfEven (x * 100) : ℚ) - x * 100) / 100 := by
    unfold decRound2
    ring
  rw [hx, abs_div, abs_of_pos (by norm_num : (0 : ℚ) < 100)]
  linarith [abs_nonneg ((roundHalfEven (x * 100) : ℚ) - x * 100)]

/-- Characterisation of Int.log base 2 by a bracketing pair of powers. -/
theorem int_log2_eq {x : ℚ} {k : ℤ} (hx : 0 < x) (h1 : (2 : ℚ) ^ k ≤ x)
    (h2 : x < (2 : ℚ) ^ (k + 1)) : Int.log 2 x = k := by
  have ha : k ≤ Int.log 2 x := by
    rw [← Int.zpow_le_iff_le_log (show (1 : ℕ) < 2 by norm_num) hx]
    exact_mod_cast h1
  have hb : Int.log 2 x < k + 1 := by
    rw [← Int.lt_zpow_iff_log_lt (show (1 : ℕ) < 2 by norm_num) hx]
    exact_mod_cast h2
  omega

/-- Binary64 rounding of a positive rational has relative error at most
2 to the minus 53. -/
theorem toDoublePos_near {x : ℚ} (hx : 0 < x) :
    |toDoublePos x - x| ≤ x / 9007199254740992 := by
  have h2 : (0 : ℚ) < (2 : ℚ) ^ (Int.log 2 x - 52) := zpow_pos (by norm_num) _
  have hxx : x / (2 : ℚ) ^ (Int.log 2 x - 52) * (2 : ℚ) ^ (Int.log 2 x - 52)
      = x := div_mul_cancel₀ x (ne_of_gt h2)
  have hr := roundHalfEven_near (x / (2 : ℚ) ^ (Int.log 2 x - 52))
  have heq : toDoublePos x - x =
      ((roundHalfEven (x / (2 : ℚ) ^ (Int.log 2 x - 52)) : ℚ) -
        x / (2 : ℚ) ^ (Int.log 2 x - 52)) * (2 : ℚ) ^ (Int.log 2 x - 52) := by
    simp only [toDoublePos]
    rw [sub_mul, hxx]
  rw [heq, abs_mul, abs_of_pos h2]
  have hb : (2 : ℚ) ^ (Int.log 2 x - 52) ≤ x / 4503599627370496 := by
    have hlog : (2 : ℚ) ^ Int.log 2 x ≤ x :=
      Int.zpow_log_le_self (by norm_num) hx
    have hsplit : (2 : ℚ) ^ (Int.log 2 x - 52) =
        (2 : ℚ) ^ Int.log 2 x / 4503599627370496 := by
      rw [zpow_sub₀ (by norm_num : (2 : ℚ) ≠ 0)]
      norm_num
    rw [hsplit]
    exact div_le_div_of_nonneg_right hlog (by norm_num)
  calc |(roundHalfEven (x / (2 : ℚ) ^ (Int.log 2 x - 52)) : ℚ) -
        x / (2 : ℚ) ^ (Int.log 2 x - 52)| * (2 : ℚ) ^ (Int.log 2 x - 52)
      ≤ (1 / 2) * (x / 4503599627370496) :=
        mul_le_mul hr hb (le_of_lt h2) (by norm_num)
    _ = x / 9007199254740992 := by ring

/-- Binary64 rounding of any rational has relative error at most 2 to the
minus 53. -/
theorem toDouble_near (x : ℚ) : |toDouble x - x| ≤ |x| / 9007199254740992 := by
  rcases lt_trichotomy x 0 with hneg | rfl | hpos
  · have h := toDoublePos_near (show (0 : ℚ) < -x by linarith)
    have hval : toDouble x = -toDoublePos (-x) := by
      simp [toDouble, hneg.ne, not_lt.mpr (le_of_lt hneg)]
    rw [hval]
    have heq : -toDoublePos (-x) - x = -(toDoublePos (-x) - -x) := by ring
    rw [heq, abs_neg, abs_of_neg hneg]
    exact h
  · simp [toDouble]
  · have h := toDoublePos_near hpos
    have hval : toDouble x = toDoublePos x := by
      simp [toDouble, hpos.ne', hpos]
    rw [hval, abs_of_pos hpos]
    exact h

/-- A rational that reads back as a positive double is itself positive. -/
theorem toDouble_pos_arg {q f : ℚ} (hf : 0 < f) (h : toDouble q = f) :
    0 < q := by
  rcases lt_trichotomy q 0 with hq | rfl | hq
  · exfalso
    have hpos : (0 : ℚ) < -q := by linarith
    have hn := toDoublePos_near hpos
    have h1 : -q - -q / 9007199254740992 ≤ toDoublePos (-q) := by
      have := (abs_le.mp hn).1
      linarith
    have h2 : (0 : ℚ) < toDoublePos (-q) := by
      have : -q / 9007199254740992 < -q := div_lt_self hpos (by norm_num)
      linarith
    have hval : toDouble q = -toDoublePos (-q) := by
      simp [toDouble, hq.ne, not_lt.mpr (le_of_lt hq)]
    rw [hval] at h
    linarith
  · simp [toDouble] at h
    exact absurd h.symm (ne_of_gt hf)
  · exact hq

/-- Elimination principle for getD over findSome?: any property that holds
of every hit and of the default holds of the result. -/
theorem getD_findSome?_spec {P : ℚ → Prop} {l : List ℕ} {g : ℕ → Option ℚ}
    {d : ℚ} (H : ∀ i q, g i = some q → P q) (hd : P d) :
    P ((l.findSome? g).getD d) := by
  rcases hm : l.findSome? g with _ | q
  · simpa using hd
  · obtain ⟨i, hi, hfi⟩ := List.exists_of_findSome?_eq_some hm
    simpa using H i q hfi

/-- The shortest-repr search returns either a decimal that reads back as
exactly f or, in the never-arising fallback, f itself. -/
theorem floatReprPos_spec (f : ℚ) :
    toDouble (floatReprPos f) = f ∨ floatReprPos f = f := by
  unfold floatReprPos
  refine @getD_findSome?_spec (fun q => toDouble q = f ∨ q = f) _ _ _
    (fun i q hq => ?_) (Or.inr rfl)
  by_cases hcond : toDouble (decimalRoundPos f (i + 1)) = f
  · simp only [hcond, if_true, Option.some.injEq] at hq
    subst hq
    exact Or.inl hcond
  · simp only [hcond, if_false] at hq
    exact absurd hq (by simp)

/-- The shortest repr of a positive double is within a relative 2 to the
minus 52 of the double, since the double is the binary64 rounding of it. -/
theorem floatReprPos_near {f : ℚ} (hf : 0 < f) :
    |floatReprPos f - f| ≤ f / 4503599627370496 := by
  rcases floatReprPos_spec f with h | h
  · have hq : 0 < floatReprPos f := toDouble_pos_arg hf h
    have hval : toDouble (floatReprPos f) = toDoublePos (floatReprPos f) := by
      simp [toDouble, hq.ne', hq]
    have hnear := toDoublePos_near hq
    rw [hval] at h
    rw [h] at hnear
    rw [abs_sub_comm] at hnear
    have hub : floatReprPos f * 9007199254740991 ≤ f * 9007199254740992 := by
      have h1 := (abs_le.mp hnear).2
      nlinarith [hq.le]
    have h2 := (abs_le.mp hnear).1
    have h3 := (abs_le.mp hnear).2
    rw [abs_le]
    constructor <;> nlinarith [hq.le, hf.le]
  · rw [h]
    simp
    positivity

/-- The shortest repr of any double is within a relative 2 to the minus 52
of the double. -/
theorem floatRepr_near (f : ℚ) : |floatRepr f - f| ≤ |f| / 4503599627370496 := by
  rcases lt_trichotomy f 0 with hneg | rfl | hpos
  · have h := floatReprPos_near (show (0 : ℚ) < -f by linarith)
    have hval : floatRepr f = -floatReprPos (-f) := by
      simp [floatRepr, hneg.ne, not_lt.mpr (le_of_lt hneg)]
    rw [hval]
    have heq : -floatReprPos (-f) - f = -(floatReprPos (-f) - -f) := by ring
    rw [heq, abs_neg, abs_of_neg hneg]
    exact h
  · simp [floatRepr]
  · have h := floatReprPos_near hpos
    have hval : floatRepr f = floatReprPos f := by
      simp [floatRepr, hpos.ne', hpos]
    rw [hval, abs_of_pos hpos]
    exact h

/-- Evaluation of roundHalfEven below the midpoint. -/
theorem roundHalfEven_eval_lt {y : ℚ} {f : ℤ} (hf : ⌊y⌋ = f)
    (h : y - (f : ℚ) < 1 / 2) : roundHalfEven y = f := by
  simp only [roundHalfEven, hf]
  rw [if_pos h]

/-- Evaluation of roundHalfEven above the midpoint. -/
theorem roundHalfEven_eval_gt {y : ℚ} {f : ℤ} (hf : ⌊y⌋ = f)
    (h1 : ¬(y - (f : ℚ) < 1 / 2)) (h2 : 1 / 2 < y - (f : ℚ)) :
    roundHalfEven y = f + 1 := by
  simp only [roundHalfEven, hf]
  rw [if_neg h1, if_pos h2]

/-- Evaluation of toDoublePos from a bracketing exponent and the rounded
significand. -/
theorem toDoublePos_eval {x : ℚ} {k n : ℤ} (hx : 0 < x)
    (h1 : (2 : ℚ) ^ k ≤ x) (h2 : x < (2 : ℚ) ^ (k + 1))
    (hn : roundHalfEven (x / (2 : ℚ) ^ (k - 52)) = n) :
    toDoublePos x = (n : ℚ) * (2 : ℚ) ^ (k - 52) := by
  have hlog := int_log2_eq hx h1 h2
  simp only [toDoublePos]
  rw [hlog, hn]

/-- Reduction of toDouble on a positive argument. -/
theorem toDouble_eval_pos {x : ℚ} (hx : 0 < x) :
    toDouble x = toDoublePos x := by
  simp [toDouble, hx.ne', hx]

/-- Error budget for the float share path: for a pool of at most 10^10 in
magnitude, split over at most 10^6 valid rows, the stored share times the
count is within one unit of decimal rounding of the pool, and the
two-decimal preview share times the count is within count/2 units plus one
unit. -/
theorem cota_err_bounds (t : ℚ) (c : ℕ) (ht : |t| ≤ 10 ^ 10)
    (hc6 : c ≤ 10 ^ 6) (hc : 0 < c) :
    |stored_cota_indirecte t c * c - t| ≤ 1 / 100 ∧
    |preview_cota_indirecte t c * c - t| ≤ (c : ℚ) / 200 + 1 / 100 := by
  have hT : |t| ≤ 10000000000 := by norm_num at ht; exact ht
  have hcq : (0 : ℚ) < (c : ℚ) := by exact_mod_cast hc
  have hc0 : ((c : ℚ)) ≠ 0 := ne_of_gt hcq
  set t1 := toDouble t with ht1def
  set q0 : ℚ := t1 / c with hq0def
  set q1 := toDouble q0 with hq1def
  have hA : |t1 - t| ≤ |t| / 9007199254740992 := toDouble_near t
  have hAt : |t1 - t| ≤ 10000000000 / 9007199254740992 :=
    le_trans hA (div_le_div_of_nonneg_right hT (by norm_num))
  have hT1 : |t1| ≤ 20000000000 := by
    have h1 : |t1| ≤ |t1 - t| + |t| := by
      calc |t1| = |(t1 - t) + t| := by ring_nf
        _ ≤ |t1 - t| + |t| := abs_add _ _
    have h2 : (10000000000 : ℚ) / 9007199254740992 ≤ 10000000000 := by
      norm_num
    linarith
  have hq0c : q0 * c = t1 := div_mul_cancel₀ t1 hc0
  have hq0abs : |q0| * c = |t1| := by
    calc |t1 / (c : ℚ)| * c = |t1| / |(c : ℚ)| * c := by rw [abs_div]
      _ = |t1| / c * c := by rw [abs_of_pos hcq]
      _ = |t1| := div_mul_cancel₀ _ hc0
  have hB : |q1 - q0| ≤ |q0| / 9007199254740992 := toDouble_near q0
  have hBc : |q1 - q0| * c ≤ 20000000000 / 9007199254740992 := by
    calc |q1 - q0| * c ≤ |q0| / 9007199254740992 * c :=
          mul_le_mul_of_nonneg_right hB hcq.le
      _ = |q0| * c / 9007199254740992 := by ring
      _ = |t1| / 9007199254740992 := by rw [hq0abs]
      _ ≤ 20000000000 / 9007199254740992 :=
          div_le_div_of_nonneg_right hT1 (by norm_num)
  have hq1c : |q1| * c ≤ 40000000000 := by
    have h1 : |q1| ≤ |q1 - q0| + |q0| := by
      calc |q1| = |(q1 - q0) + q0| := by ring_nf
        _ ≤ |q1 - q0| + |q0| := abs_add _ _
    calc |q1| * c ≤ (|q1 - q0| + |q0|) * c :=
          mul_le_mul_of_nonneg_right h1 hcq.le
      _ = |q1 - q0| * c + |q0| * c := by ring
      _ ≤ 20000000000 / 9007199254740992 + 20000000000 := by
          rw [hq0abs]; linarith
      _ ≤ 40000000000 := by norm_num
  have hSval : stored_cota_indirecte t c = floatRepr q1 := by
    simp only [stored_cota_indirecte, cota_indirecte_per_worker, if_pos hc]
  have hS : |stored_cota_indirecte t c - q1| ≤ |q1| / 4503599627370496 := by
    rw [hSval]
    exact floatRepr_near q1
  have hSc : |stored_cota_indirecte t c - q1| * c ≤
      40000000000 / 4503599627370496 := by
    calc |stored_cota_indirecte t c - q1| * c
        ≤ |q1| / 4503599627370496 * c :=
          mul_le_mul_of_nonneg_right hS hcq.le
      _ = |q1| * c / 4503599627370496 := by ring
      _ ≤ 40000000000 / 4503599627370496 :=
          div_le_div_of_nonneg_right hq1c (by norm_num)
  constructor
  · have hdec : stored_cota_indirecte t c * c - t =
        (stored_cota_indirecte t c - q1) * c + (q1 - q0) * c + (t1 - t) := by
      rw [sub_mul, sub_mul, hq0c]; ring
    calc |stored_cota_indirecte t c * c - t|
        = |(stored_cota_indirecte t c - q1) * c + (q1 - q0) * c + (t1 - t)| :=
          by rw [hdec]
      _ ≤ |(stored_cota_indirecte t c - q1) * c| + |(q1 - q0) * c| +
            |t1 - t| := abs_add_three _ _ _
      _ = |stored_cota_indirecte t c - q1| * c + |q1 - q0| * c + |t1 - t| :=
          by rw [abs_mul, abs_mul, abs_of_pos hcq]
      _ ≤ 40000000000 / 4503599627370496 + 20000000000 / 9007199254740992 +
            10000000000 / 9007199254740992 := by linarith
      _ ≤ 1 / 100 := by norm_num
  · set r2 := decRound2 q1 with hr2def
    have hval : preview_cota_indirecte t c = toDouble r2 := by
      simp only [preview_cota_indirecte, pythonRound2,
        cota_indirecte_per_worker, if_pos hc]
    have hRnear : |r2 - q1| ≤ 1 / 200 := decRound2_near q1
    have hr2abs : |r2| ≤ |q1| + 1 / 200 := by
      calc |r2| = |(r2 - q1) + q1| := by ring_nf
        _ ≤ |r2 - q1| + |q1| := abs_add _ _
        _ ≤ |q1| + 1 / 200 := by linarith
    have hr2c : |r2| * c ≤ 40000005000 := by
      have hcle : (c : ℚ) ≤ 1000000 := by
        norm_num at hc6
        exact_mod_cast hc6
      calc |r2| * c ≤ (|q1| + 1 / 200) * c :=
            mul_le_mul_of_nonneg_right hr2abs hcq.le
        _ = |q1| * c + c / 200 := by ring
        _ ≤ 40000000000 + 1000000 / 200 := by
            have h5 : (c : ℚ) / 200 ≤ 1000000 / 200 :=
              div_le_div_of_nonneg_right hcle (by norm_num)
            linarith
        _ = 40000005000 := by norm_num
    have hP : |toDouble r2 - r2| ≤ |r2| / 9007199254740992 := toDouble_near r2
    have hPc : |toDouble r2 - r2| * c ≤ 40000005000 / 9007199254740992 := by
      calc |toDouble r2 - r2| * c ≤ |r2| / 9007199254740992 * c :=
            mul_le_mul_of_nonneg_right hP hcq.le
        _ = |r2| * c / 9007199254740992 := by ring
        _ ≤ 40000005000 / 9007199254740992 :=
            div_le_div_of_nonneg_right hr2c (by norm_num)
    have hRc : |r2 - q1| * c ≤ (c : ℚ) / 200 := by
      calc |r2 - q1| * c ≤ 1 / 200 * c :=
            mul_le_mul_of_nonneg_right hRnear hcq.le
        _ = (c : ℚ) / 200 := by ring
    have hdec : preview_cota_indirecte t c * c - t =
        (toDouble r2 - r2) * c + (r2 - q1) * c + (q1 - q0) * c + (t1 - t) := by
      rw [hval, sub_mul, sub_mul, sub_mul, hq0c]; ring
    calc |preview_cota_indirecte t c * c - t|
        = |(toDouble r2 - r2) * c + (r2 - q1) * c + (q1 - q0) * c +
            (t1 - t)| := by rw [hdec]
      _ ≤ |(toDouble r2 - r2) * c + (r2 - q1) * c + (q1 - q0) * c| +
            |t1 - t| := abs_add _ _
      _ ≤ |(toDouble r2 - r2) * c| + |(r2 - q1) * c| + |(q1 - q0) * c| +
            |t1 - t| := by
          linarith [abs_add_three ((toDouble r2 - r2) * c)
            ((r2 - q1) * c) ((q1 - q0) * c)]
      _ = |toDouble r2 - r2| * c + |r2 - q1| * c + |q1 - q0| * c +
            |t1 - t| := by rw [abs_mul, abs_mul, abs_mul, abs_of_pos hcq]
      _ ≤ 40000005000 / 9007199254740992 + (c : ℚ) / 200 +
            20000000000 / 9007199254740992 +
            10000000000 / 9007199254740992 := by linarith
      _ ≤ (c : ℚ) / 200 + 1 / 100 := by
          have hnum : (40000005000 : ℚ) / 9007199254740992 +
              20000000000 / 9007199254740992 +
              10000000000 / 9007199254740992 ≤ 1 / 100 := by norm_num
          linarith

/-- Counterexample to C4 as stated: for a pool of 100 over 7 valid rows the
double 100/7 rounds at two decimals to the double nearest 14.29, and that
preview share times 7 falls short of the pool by just under 0.03, about
three units of the last decimal place rather than at most one. -/
theorem C4_counterexample :
    preview_cota_indirecte 100 7 = 2011138708597637 / 140737488355328 ∧
    preview_cota_indirecte 100 7 * 7 - 100 =
      4222124650659 / 140737488355328 ∧
    ¬ |preview_cota_indirecte 100 7 * 7 - 100| ≤ 1 / 100 := by
  have e100 : toDouble 100 = 100 := by
    rw [toDouble_eval_pos (by norm_num)]
    have hn : roundHalfEven ((100 : ℚ) / (2 : ℚ) ^ ((6 : ℤ) - 52)) =
        7036874417766400 := by
      have harg : (100 : ℚ) / (2 : ℚ) ^ ((6 : ℤ) - 52) = 7036874417766400 := by
        norm_num
      rw [harg]
      exact roundHalfEven_eval_lt (by rw [Int.floor_eq_iff]; norm_num)
        (by norm_num)
    have h := @toDoublePos_eval (100 : ℚ) 6 7036874417766400 (by norm_num)
      (by norm_num) (by norm_num) hn
    rw [h]
    norm_num
  have hq1 : toDouble ((100 : ℚ) / 7) =
      8042142191733029 / 562949953421312 := by
    rw [toDouble_eval_pos (by norm_num)]
    have hn : roundHalfEven ((100 / 7 : ℚ) / (2 : ℚ) ^ ((3 : ℤ) - 52)) =
        8042142191733029 := by
      have harg : (100 / 7 : ℚ) / (2 : ℚ) ^ ((3 : ℤ) - 52) =
          56294995342131200 / 7 := by norm_num
      rw [harg]
      have h := roundHalfEven_eval_gt
        (show ⌊(56294995342131200 / 7 : ℚ)⌋ = 8042142191733028 by
          rw [Int.floor_eq_iff]; norm_num)
        (by norm_num) (by norm_num)
      rw [h]
      norm_num
    have h := @toDoublePos_eval (100 / 7 : ℚ) 3 8042142191733029
      (by norm_num) (by norm_num) (by norm_num) hn
    rw [h]
    norm_num
  have hcota : cota_indirecte_per_worker 100 7 =
      8042142191733029 / 562949953421312 := by
    simp only [cota_indirecte_per_worker, if_pos (show (7 : ℕ) > 0 by
      norm_num)]
    rw [e100]
    have hcast : ((7 : ℕ) : ℚ) = 7 := by norm_num
    rw [hcast, hq1]
  have hdr : decRound2 (8042142191733029 / 562949953421312 : ℚ) =
      1429 / 100 := by
    unfold decRound2
    have harg : (8042142191733029 / 562949953421312 : ℚ) * 100 =
        804214219173302900 / 562949953421312 := by norm_num
    rw [harg]
    have h := roundHalfEven_eval_gt
      (show ⌊(804214219173302900 / 562949953421312 : ℚ)⌋ = 1428 by
        rw [Int.floor_eq_iff]; norm_num)
      (by norm_num) (by norm_num)
    rw [h]
    norm_num
  have hpv : toDouble (1429 / 100 : ℚ) =
      2011138708597637 / 140737488355328 := by
    rw [toDouble_eval_pos (by norm_num)]
    have hn : roundHalfEven ((1429 / 100 : ℚ) / (2 : ℚ) ^ ((3 : ℤ) - 52)) =
        8044554834390548 := by
      have harg : (1429 / 100 : ℚ) / (2 : ℚ) ^ ((3 : ℤ) - 52) =
          201113870859763712 / 25 := by norm_num
      rw [harg]
      exact roundHalfEven_eval_lt
        (show ⌊(201113870859763712 / 25 : ℚ)⌋ = 8044554834390548 by
          rw [Int.floor_eq_iff]; norm_num)
        (by norm_num)
    have h := @toDoublePos_eval (1429 / 100 : ℚ) 3 8044554834390548
      (by norm_num) (by norm_num) (by norm_num) hn
    rw [h]
    norm_num
  have hfinal : preview_cota_indirecte 100 7 =
      2011138708597637 / 140737488355328 := by
    simp only [preview_cota_indirecte, pythonRound2]
    rw [hcota, hdr, hpv]
  refine ⟨hfinal, by rw [hfinal]; norm_num, ?_⟩
  rw [hfinal, show (2011138708597637 / 140737488355328 : ℚ) * 7 - 100 =
    4222124650659 / 140737488355328 by norm_num,
    abs_of_pos (by norm_num : (0 : ℚ) < 4222124650659 / 140737488355328)]
  norm_num

/-- C4 amended: the share is the pool divided by the count of valid rows,
computed in binary floating point and stored through the float repr, and is
exactly 0 when the count is 0; for pools up to 10^10 and batches up to 10^6
valid rows the share stored on processed records times the count is still
within one unit of decimal rounding of the pool, while the preview share,
further rounded to two decimals, times the count is only within count/2
units plus one unit. -/
theorem C4_indirect_share_split (t : ℚ) (c : ℕ) (ht : |t| ≤ 10 ^ 10)
    (hc6 : c ≤ 10 ^ 6) :
    stored_cota_indirecte t 0 = 0 ∧
    preview_cota_indirecte t 0 = 0 ∧
    (0 < c → |stored_cota_indirecte t c * c - t| ≤ 1 / 100) ∧
    (0 < c →
      |preview_cota_indirecte t c * c - t| ≤ (c : ℚ) / 200 + 1 / 100) := by
  refine ⟨?_, ?_, fun hc => (cota_err_bounds t c ht hc6 hc).1,
    fun hc => (cota_err_bounds t c ht hc6 hc).2⟩
  · simp [stored_cota_indirecte, cota_indirecte_per_worker, floatRepr]
  · norm_num [preview_cota_indirecte, cota_indirecte_per_worker,
      pythonRound2, decRound2, roundHalfEven, toDouble, Int.floor_zero]

/-- Witness for the amended C4 at pool 100: the stored share is 0 for an
empty batch, its product with 4 rows stays within one unit of 100, and the
rounded preview share stays within the 4/200 plus 1/100 bound. -/
theorem C4_witness :
    stored_cota_indirecte 100 0 = 0 ∧
    |stored_cota_indirecte 100 4 * (4 : ℕ) - 100| ≤ 1 / 100 ∧
    |preview_cota_indirecte 100 4 * (4 : ℕ) - 100| ≤
      ((4 : ℕ) : ℚ) / 200 + 1 / 100 :=
  ⟨(C4_indirect_share_split 100 0 (by norm_num) (by norm_num)).1,
   (C4_indirect_share_split 100 4 (by norm_num) (by norm_num)).2.2.1
     (by norm_num),
   (C4_indirect_share_split 100 4 (by norm_num) (by norm_num)).2.2.2
     (by norm_num)⟩

/-- C2: every invoice that issue_invoice creates, in any of the three
modes, has vat_total = subtotal * vatRate / 100 with the configured
vatRate of 21 and total = subtotal + vat_total. -/
theorem C2_issued_invoice_vat_and_total (db : List BillingInvoice)
    (records : List EcoFinProcessedRecord) (client : Client)
    (year month : Nat) (mode : IssueMode) (extra_lines : List ExtraLine)
    (confirm : Bool) (series number : String) (inv : BillingInvoice)
    (ls : List BillingInvoiceLine)
    (h : issue_invoice db records client year month mode extra_lines confirm
        series number = Except.ok (inv, ls)) :
    inv.vat_total = inv.subtotal * (21 / 100) ∧
    inv.total = inv.subtotal + inv.vat_total := by
  cases mode with
  | standard =>
      simp only [issue_invoice] at h
      split at h
      · exact absurd h (by simp)
      · rw [Except.ok.injEq, Prod.mk.injEq] at h
        obtain ⟨h1, h2⟩ := h
        subst h1
        exact ⟨rfl, rfl⟩
  | difference =>
      simp only [issue_invoice] at h
      split at h
      · exact absurd h (by simp)
      · split at h
        · exact absurd h (by simp)
        · rw [Except.ok.injEq, Prod.mk.injEq] at h
          obtain ⟨h1, h2⟩ := h
          subst h1
          exact ⟨rfl, rfl⟩
  | extra_services =>
      simp only [issue_invoice] at h
      split at h
      · exact absurd h (by simp)
      · split at h
        · exact absurd h (by simp)
        · rw [Except.ok.injEq, Prod.mk.injEq] at h
          obtain ⟨h1, h2⟩ := h
          subst h1
          exact ⟨rfl, rfl⟩

/-- Witness for C2 at a concrete standard issuance: the created invoice has
subtotal 4200, vat_total 882 = 4200 * 21 / 100 and
total 5082 = 4200 + 882. -/
theorem C2_witness :
    issue_invoice [] [exampleRecord] exampleClient 2025 1 IssueMode.standard
        [] true "ISS" "1001" = Except.ok (c2_invoice, c2_lines) ∧
    c2_invoice.vat_total = c2_invoice.subtotal * (21 / 100) ∧
    c2_invoice.total = c2_invoice.subtotal + c2_invoice.vat_total := by
  have h : issue_invoice [] [exampleRecord] exampleClient 2025 1
      IssueMode.standard [] true "ISS" "1001" =
      Except.ok (c2_invoice, c2_lines) := by
    norm_num [issue_invoice, totalHoursFor, alreadyBilled, mkIssuedInvoice,
      mkInvoiceLines, BillingInvoice.save, exampleRecord, exampleClient,
      c2_invoice, c2_lines]
  exact ⟨h, C2_issued_invoice_vat_and_total [] [exampleRecord] exampleClient
    2025 1 IssueMode.standard [] true "ISS" "1001" c2_invoice c2_lines h⟩

/-- C3: difference-mode issuance errors, and the invoice table is left
untouched, exactly when the computed standard subtotal does not exceed the
sum already billed on ISSUED invoices of the period; otherwise the created
invoice carries the computed subtotal minus the already-billed amount. -/
theorem C3_difference_mode (db : List BillingInvoice)
    (records : List EcoFinProcessedRecord) (client : Client)
    (year month : Nat) (extra_lines : List ExtraLine)
    (series number : String) :
    (totalHoursFor records client.id year month * client.tarif_orar ≤
        alreadyBilled db client.id year month →
      issue_invoice db records client year month IssueMode.difference
          extra_lines true series number =
        Except.error "Nu există diferență de facturat. Valoarea calculată nu depășește facturile existente." ∧
      issue_invoice_db db records client year month IssueMode.difference
          extra_lines true series number = db) ∧
    (alreadyBilled db client.id year month <
        totalHoursFor records client.id year month * client.tarif_orar →
      issue_invoice_subtotal db records client year month
          IssueMode.difference extra_lines true series number =
        some (totalHoursFor records client.id year month *
          client.tarif_orar - alreadyBilled db client.id year month)) := by
  constructor
  · intro hle
    have herr : issue_invoice db records client year month
        IssueMode.difference extra_lines true series number =
        Except.error "Nu există diferență de facturat. Valoarea calculată nu depășește facturile existente." := by
      simp only [issue_invoice]
      rw [if_neg (by simp : ¬(true = false)), if_pos hle]
    exact ⟨herr, by simp only [issue_invoice_db, herr]⟩
  · intro hlt
    simp only [issue_invoice_subtotal, issue_invoice]
    rw [if_neg (by simp : ¬(true = false)), if_neg (not_le.mpr hlt)]
    rfl

/-- Witness for C3 on the spec numbers: a computed subtotal of 6000 against
6500 already billed fails and leaves the invoice table unchanged, while
against 4000 already billed it bills the 2000 difference. -/
theorem C3_witness :
    (issue_invoice [c3_invoice 6500] [c3_record] c3_client 2025 3
        IssueMode.difference [] true "ISS" "10" =
      Except.error "Nu există diferență de facturat. Valoarea calculată nu depășește facturile existente." ∧
     issue_invoice_db [c3_invoice 6500] [c3_record] c3_client 2025 3
        IssueMode.difference [] true "ISS" "10" = [c3_invoice 6500]) ∧
    issue_invoice_subtotal [c3_invoice 4000] [c3_record] c3_client 2025 3
        IssueMode.difference [] true "ISS" "10" = some 2000 := by
  have hth : totalHoursFor [c3_record] c3_client.id 2025 3 = 200 := by
    norm_num [totalHoursFor, c3_record, c3_client, exampleRecord]
  have hrate : c3_client.tarif_orar = 30 := rfl
  have h65 : alreadyBilled [c3_invoice 6500] c3_client.id 2025 3 = 6500 := by
    norm_num [alreadyBilled, c3_invoice, c3_client]
  have h40 : alreadyBilled [c3_invoice 4000] c3_client.id 2025 3 = 4000 := by
    norm_num [alreadyBilled, c3_invoice, c3_client]
  refine ⟨(C3_difference_mode [c3_invoice 6500] [c3_record] c3_client 2025 3
    [] "ISS" "10").1 (by rw [hth, hrate, h65]; norm_num), ?_⟩
  have h := (C3_difference_mode [c3_invoice 4000] [c3_record] c3_client 2025 3
    [] "ISS" "10").2 (by rw [hth, hrate, h40]; norm_num)
  rw [hth, hrate, h40] at h
  rw [h]
  norm_num

/-- C8: extra_services-mode issuance errors when the supplied list of extra
lines is empty, and otherwise the created invoice carries the sum of
quantity * unitPrice over the supplied lines as its subtotal. -/
theorem C8_extra_services_mode (db : List BillingInvoice)
    (records : List EcoFinProcessedRecord) (client : Client)
    (year month : Nat) (extra_lines : List ExtraLine)
    (series number : String) :
    (extra_lines = [] →
      issue_invoice db records client year month IssueMode.extra_services
          extra_lines true series number =
        Except.error "Pentru modul extra_services, trebuie să furnizați extra_lines.") ∧
    (extra_lines ≠ [] →
      issue_invoice_subtotal db records client year month
          IssueMode.extra_services extra_lines true series number =
        some ((extra_lines.map fun e => e.quantity * e.unit_price).sum)) := by
  constructor
  · intro he
    subst he
    simp only [issue_invoice]
    rw [if_neg (by simp : ¬(true = false))]
    rfl
  · intro hne
    simp only [issue_invoice_subtotal, issue_invoice]
    rw [if_neg (by simp : ¬(true = false)),
      if_neg (by simp [hne] : ¬(extra_lines.isEmpty = true))]
    rfl

/-- Witness for C8: an empty extra-lines list is rejected, and the single
line 2 x 50 yields an invoice subtotal of 100. -/
theorem C8_witness :
    issue_invoice [] [] exampleClient 2025 1 IssueMode.extra_services []
        true "ISS" "2" =
      Except.error "Pentru modul extra_services, trebuie să furnizați extra_lines." ∧
    issue_invoice_subtotal [] [] exampleClient 2025 1
        IssueMode.extra_services [c8_line] true "ISS" "2" = some 100 := by
  refine ⟨(C8_extra_services_mode [] [] exampleClient 2025 1 [] "ISS" "2").1
    rfl, ?_⟩
  have h := (C8_extra_services_mode [] [] exampleClient 2025 1 [c8_line]
    "ISS" "2").2 (by simp)
  rw [h]
  norm_num [c8_line]

/-- C9: whenever validate_month succeeds, every EcoFinSettings row of that
same (year, month) in the resulting settings table has is_locked = true. -/
theorem C9_validate_month_locks_settings
    (records : List EcoFinProcessedRecord)
    (settingsRows : List EcoFinSettings) (year month : Nat)
    (rs : List EcoFinProcessedRecord) (ss : List EcoFinSettings)
    (h : validate_month records settingsRows year month =
      Except.ok (rs, ss)) :
    ∀ s ∈ ss, s.year = year → s.month = month → s.is_locked = true := by
  simp only [validate_month] at h
  split at h
  · exact absurd h (by simp)
  · rw [Except.ok.injEq, Prod.mk.injEq] at h
    obtain ⟨h1, h2⟩ := h
    subst h2
    intro s hs hy hm
    rw [List.mem_map] at hs
    obtain ⟨t, ht, rfl⟩ := hs
    have hty : t.year = year := by
      rcases Bool.eq_false_or_eq_true (t.year == year && t.month == month)
        with hc | hc <;> simpa [hc] using hy
    have htm : t.month = month := by
      rcases Bool.eq_false_or_eq_true (t.year == year && t.month == month)
        with hc | hc <;> simpa [hc] using hm
    have hc : (t.year == year && t.month == month) = true := by
      simp [hty, htm]
    simp [hc]

/-- Witness for C9: validating 1/2025 over one unvalidated record marks the
record validated and leaves the settings row of 1/2025 locked. -/
theorem C9_witness :
    validate_month [exampleRecord] [exampleSettings] 2025 1 =
      Except.ok ([c7_validated], [exampleSettingsLocked]) ∧
    exampleSettingsLocked.is_locked = true := by
  have h : validate_month [exampleRecord] [exampleSettings] 2025 1 =
      Except.ok ([c7_validated], [exampleSettingsLocked]) := by
    norm_num [validate_month, exampleRecord, exampleSettings,
      exampleSettingsLocked, c7_validated]
  exact ⟨h, C9_validate_month_locks_settings [exampleRecord]
    [exampleSettings] 2025 1 [c7_validated] [exampleSettingsLocked] h
    exampleSettingsLocked (by simp) rfl rfl⟩

/-- C10: whenever process_import succeeds, every pre-existing processed
record that is not an unvalidated record of the re-imported (year, month)
is still present, unchanged, in the resulting table; in particular every
validated record of that period survives reprocessing. -/
theorem C10_process_import_preserves
    (recordsDB : List EcoFinProcessedRecord)
    (settingsDB : List EcoFinSettings) (workers : List Worker)
    (clients : List Client) (year month : Nat) (rows : List ImportRow)
    (out : List EcoFinProcessedRecord)
    (h : process_import recordsDB settingsDB workers clients year month
      rows = Except.ok out) :
    ∀ r ∈ recordsDB,
      ¬(r.year = year ∧ r.month = month ∧ r.is_validated = false) →
      r ∈ out := by
  simp only [process_import] at h
  split at h
  · exact absurd h (by simp)
  · rw [Except.ok.injEq] at h
    subst h
    intro r hr hnot
    apply List.mem_append_left
    rw [List.mem_filter]
    refine ⟨hr, ?_⟩
    rcases Bool.eq_false_or_eq_true (r.year == year) with hA | hA
    · rcases Bool.eq_false_or_eq_true (r.month == month) with hB | hB
      · rcases Bool.eq_false_or_eq_true (r.is_validated == false) with hC | hC
        · exact absurd
            ⟨beq_iff_eq.mp hA, beq_iff_eq.mp hB, beq_iff_eq.mp hC⟩ hnot
        · simp [hA, hB, hC]
      · simp [hA, hB]
    · simp [hA]

/-- Witness for C10: reprocessing 1/2025 over a table holding a validated
1/2025 record, an unvalidated 1/2025 record and a 2/2025 record deletes
only the unvalidated 1/2025 record, and the validated record survives. -/
theorem C10_witness :
    process_import [c7_validated, exampleRecord, c10_other]
        [exampleSettings] [] [] 2025 1 [] =
      Except.ok [c7_validated, c10_other] ∧
    c7_validated ∈ [c7_validated, c10_other] := by
  have h : process_import [c7_validated, exampleRecord, c10_other]
      [exampleSettings] [] [] 2025 1 [] =
      Except.ok [c7_validated, c10_other] := by
    simp [process_import, List.find?, List.filter, c7_validated,
      exampleRecord, c10_other, exampleSettings]
  exact ⟨h, C10_process_import_preserves [c7_validated, exampleRecord,
    c10_other] [exampleSettings] [] [] 2025 1 []
    [c7_validated, c10_other] h c7_validated (by simp)
    (by simp [c7_validated, exampleRecord])⟩
